import Mathlib

/-!
Verification of the obsidian-open-in-new-tab plugin (src/main.ts).

The development shallowly embeds the two components of the plugin:

* the Link-Resolution Interceptor — the monkey-patched `Workspace.openLinkText`
  (`monkeyPatchOpenLinkText`, src/main.ts lines 19-73) — as the pure function
  `resolve`, which returns the trace of `setActiveLeaf` calls made during the
  leaf scan, the active leaf afterwards, and the arguments delegated to the
  original primitive (or `none` when the original primitive is absent);

* the Click Classifier & Pane Router — `generateClickHandler` together with
  `_handleNavigationPanel`, `_handleDailyNoteRibbon`, `_handleUniqueNoteRibbon`
  and `_handleSearchResult` (src/main.ts lines 76-171) — as the pure function
  `clickHandler`, which returns the number of `stopPropagation` calls, the
  trace of `setActiveLeaf` calls, the `openLinkText` calls made, and the
  synthesized events dispatched (paired with their target element).

Host collaborators (the workspace's leaf enumeration, `getLeavesOfType`,
DOM `closest` and `classList`) are modelled over explicit lists.
-/

namespace OpenInNewTab

/-- A workspace leaf as the plugin consumes it: the `getViewState()` result's
`type` tag and optional `state.file` path. -/
structure Leaf where
  type : String
  file : Option String
deriving Repr, DecidableEq

/-- Embeds `linkText.split("#")?.[0]` (src/main.ts line 30): the portion of
`linkText` before the first `#`, the whole string when no `#` occurs. -/
def fileNameOf (linkText : String) : String :=
  String.mk (linkText.data.takeWhile (fun c => c != '#'))

/-- Embeds `isSameFile = fileName === "" || fileName + ".md" === sourcePath`
(src/main.ts line 34). -/
def isSameFile (linkText sourcePath : String) : Bool :=
  fileNameOf linkText == "" || (fileNameOf linkText ++ ".md") == sourcePath

/-- Embeds JavaScript `s.endsWith(suffix)`: the suffix test on the underlying
character sequences. -/
def endsWith (s suffix : String) : Bool :=
  suffix.data.isSuffixOf s.data

/-- Embeds the per-leaf match test of the interceptor's scan
(src/main.ts lines 42-46): `matchesMarkdownFile || matchesNonMarkdownFile`,
where the optional chaining `viewState.state?.file?.endsWith(...)` yields
false when the leaf has no file. -/
def leafMatches (fileName : String) (l : Leaf) : Bool :=
  let matchesMarkdownFile :=
    l.type == "markdown" && (l.file.map (fun f => endsWith f (fileName ++ ".md"))).getD false
  let matchesNonMarkdownFile :=
    !(l.type == "markdown") && (l.file.map (fun f => endsWith f fileName)).getD false
  matchesMarkdownFile || matchesNonMarkdownFile

/-- State threaded through `iterateAllLeaves` in the interceptor: the active
leaf (mutated by `setActiveLeaf`), the `fileAlreadyOpen` flag, and the ordered
trace of `setActiveLeaf` calls. -/
structure ScanState where
  active : Option Leaf
  fileAlreadyOpen : Bool
  activations : List Leaf
deriving Repr, DecidableEq

/-- Embeds the body of the `iterateAllLeaves` callback
(src/main.ts lines 40-51): on a match, the leaf becomes active and
`fileAlreadyOpen` is set. -/
def scanStep (fileName : String) (st : ScanState) (l : Leaf) : ScanState :=
  if leafMatches fileName l then
    { active := some l, fileAlreadyOpen := true, activations := st.activations ++ [l] }
  else st

/-- Observable outcome of one interceptor call. -/
structure ResolveResult where
  activations : List Leaf
  activeAfter : Option Leaf
  delegated : Option (String × String × Bool)
deriving Repr, DecidableEq

/-- Embeds the patched `openLinkText` (src/main.ts lines 24-70).
`hasOriginal` models whether `oldOpenLinkText` is available; `newLeaf` is the
caller's optional new-pane flag (`newLeaf || false` defaults it to false);
`leaves` is the workspace's leaf enumeration and `active0` the active leaf on
entry. -/
def resolve (hasOriginal : Bool) (linkText sourcePath : String) (newLeaf : Option Bool)
    (leaves : List Leaf) (active0 : Option Leaf) : ResolveResult :=
  let fileName := fileNameOf linkText
  let same := isSameFile linkText sourcePath
  let st :=
    if same then ScanState.mk active0 false []
    else leaves.foldl (scanStep fileName) (ScanState.mk active0 false [])
  let openNewLeaf :=
    if same then newLeaf.getD false
    else if st.fileAlreadyOpen then false
    else true
  { activations := st.activations
    activeAfter := st.active
    delegated := if hasOriginal then some (linkText, sourcePath, openNewLeaf) else none }

/-- A DOM element as the click handler consumes it: its class list, its
`aria-label` attribute and its `data-path` attribute (absent attributes are
`none`, as `getAttribute` returns null). -/
structure Elem where
  classes : List String
  ariaLabel : Option String
  dataPath : Option String
deriving Repr, DecidableEq

/-- The fields of a mouse click event the handler reads, plus the `bubbles`
and `cancelable` flags used when constructing a `MouseEvent`. -/
structure MouseEvt where
  shiftKey : Bool
  ctrlKey : Bool
  metaKey : Bool
  altKey : Bool
  bubbles : Bool
  cancelable : Bool
deriving Repr, DecidableEq

/-- Observable outcome of one run of the click handler: how many times
`stopPropagation` was called on the original event, the ordered
`setActiveLeaf` trace, the `openLinkText(link, source, newLeaf)` calls made,
and the synthesized events dispatched, paired with the element they were
dispatched on. -/
structure HandlerResult where
  stopPropagationCount : Nat
  activations : List Leaf
  openLinkCalls : List (String × String × Bool)
  dispatched : List (Elem × MouseEvt)
deriving Repr, DecidableEq

/-- The no-op outcome: the handler returned without side effects. -/
def HandlerResult.nil : HandlerResult :=
  { stopPropagationCount := 0, activations := [], openLinkCalls := [], dispatched := [] }

/-- Embeds the `pureClick` guard (src/main.ts lines 79-84); the source tests
`shiftKey` twice and that redundancy is kept. -/
def pureClick (ev : MouseEvt) : Bool :=
  !ev.shiftKey && !ev.ctrlKey && !ev.metaKey && !ev.shiftKey && !ev.altKey

/-- Embeds the `isNavFile` test (src/main.ts lines 89-91). -/
def isNavFile (target : Elem) : Bool :=
  target.classes.contains "nav-file-title" || target.classes.contains "nav-file-title-content"

/-- Embeds the `isDailyNoteRibbon` test (src/main.ts line 94). -/
def isDailyNoteRibbon (target : Elem) : Bool :=
  target.ariaLabel == some "Open today's daily note"
    && target.classes.contains "side-dock-ribbon-action"

/-- Embeds the `isUniqueNoteRibbon` test (src/main.ts line 97). -/
def isUniqueNoteRibbon (target : Elem) : Bool :=
  target.ariaLabel == some "Create new unique note"
    && target.classes.contains "side-dock-ribbon-action"

/-- Embeds `classesToCheck` (src/main.ts line 100); the first entry contains a
space exactly as in the source. -/
def classesToCheck : List String :=
  ["tree-item search-result", "search-result-file-title", "tree-item-inner",
   "search-result-file-matches", "search-result-file-match", "search-result"]

/-- Embeds the `isSearchResult` test (src/main.ts line 101). -/
def isSearchResult (target : Elem) : Bool :=
  target.classes.any (fun className => classesToCheck.contains className)

/-- The click classification (spec section 4.2 step 2), first match wins, in
the source's order of `if`-`return` tests (src/main.ts lines 89-102). -/
inductive ClickKind
  | navFile
  | dailyNoteRibbon
  | uniqueNoteRibbon
  | searchResult
  | unhandled
deriving Repr, DecidableEq

/-- The classification chain of `generateClickHandler`
(src/main.ts lines 89-102). -/
def classify (target : Elem) : ClickKind :=
  if isNavFile target then ClickKind.navFile
  else if isDailyNoteRibbon target then ClickKind.dailyNoteRibbon
  else if isUniqueNoteRibbon target then ClickKind.uniqueNoteRibbon
  else if isSearchResult target then ClickKind.searchResult
  else ClickKind.unhandled

/-- Embeds `target?.closest(".nav-file-title")` (src/main.ts line 107):
the first element among the target and its ancestors (nearest first) whose
class list contains `nav-file-title`. -/
def findTitleEl (target : Elem) (ancestors : List Elem) : Option Elem :=
  (target :: ancestors).find? (fun e => e.classes.contains "nav-file-title")

/-- Models the host's `getLeavesOfType` collaborator
(src/main.ts line 125, spec section 6 `listPanesOfType`): the leaves whose
view type equals the tag, in workspace order. -/
def getLeavesOfType (t : String) (ws : List Leaf) : List Leaf :=
  ws.filter (fun l => l.type == t)

/-- Embeds the body of the `iterateAllLeaves` callback in
`_handleNavigationPanel` (src/main.ts lines 115-121): the `setActiveLeaf`
trace so far and the `result` flag. -/
def navScanStep (path : String) (st : List Leaf × Bool) (l : Leaf) : List Leaf × Bool :=
  if l.file == some path then (st.1 ++ [l], true) else st

/-- Embeds `_handleNavigationPanel` (src/main.ts lines 106-135). -/
def handleNavigationPanel (ws : List Leaf) (target : Elem) (ancestors : List Elem) :
    HandlerResult :=
  match findTitleEl target ancestors with
  | none => HandlerResult.nil
  | some titleEl =>
    match titleEl.dataPath with
    | none => HandlerResult.nil
    | some path =>
      let scan := ws.foldl (navScanStep path) ([], false)
      match getLeavesOfType "empty" ws with
      | e :: _ =>
        { stopPropagationCount := 0, activations := scan.1 ++ [e],
          openLinkCalls := [], dispatched := [] }
      | [] =>
        if scan.2 then
          { stopPropagationCount := 0, activations := scan.1,
            openLinkCalls := [], dispatched := [] }
        else
          { stopPropagationCount := 1, activations := scan.1,
            openLinkCalls := [(path, path, true)], dispatched := [] }

/-- Embeds `new MouseEvent('click', { bubbles: true, cancelable: true,
metaKey: true })` (src/main.ts lines 140-144, 152-156, 164-168): unspecified
init members default to false. -/
def synthMetaClick : MouseEvt :=
  { shiftKey := false, ctrlKey := false, metaKey := true, altKey := false,
    bubbles := true, cancelable := true }

/-- Embeds `_handleDailyNoteRibbon` (src/main.ts lines 137-147): one
`stopPropagation`, one synthesized click dispatched on the same target. -/
def handleDailyNoteRibbon (target : Elem) : HandlerResult :=
  { stopPropagationCount := 1, activations := [], openLinkCalls := [],
    dispatched := [(target, synthMetaClick)] }

/-- Embeds `_handleUniqueNoteRibbon` (src/main.ts lines 149-159), whose body
is identical to the daily-note handler's. -/
def handleUniqueNoteRibbon (target : Elem) : HandlerResult :=
  { stopPropagationCount := 1, activations := [], openLinkCalls := [],
    dispatched := [(target, synthMetaClick)] }

/-- Embeds `_handleSearchResult` (src/main.ts lines 161-171), whose body is
identical to the ribbon handlers'. -/
def handleSearchResult (target : Elem) : HandlerResult :=
  { stopPropagationCount := 1, activations := [], openLinkCalls := [],
    dispatched := [(target, synthMetaClick)] }

/-- Embeds the listener returned by `generateClickHandler`
(src/main.ts lines 76-104): the modifier guard, then classification, then the
matching handler; unrecognized targets fall through with no side effects. -/
def clickHandler (ws : List Leaf) (ev : MouseEvt) (target : Elem) (ancestors : List Elem) :
    HandlerResult :=
  if !pureClick ev then HandlerResult.nil
  else
    match classify target with
    | ClickKind.navFile => handleNavigationPanel ws target ancestors
    | ClickKind.dailyNoteRibbon => handleDailyNoteRibbon target
    | ClickKind.uniqueNoteRibbon => handleUniqueNoteRibbon target
    | ClickKind.searchResult => handleSearchResult target
    | ClickKind.unhandled => HandlerResult.nil

/-! Helper lemmas about the two scan folds and about `fileNameOf`. -/

theorem takeWhile_append_of_sat (p : Char → Bool) (l₁ l₂ : List Char) (c : Char)
    (h₁ : ∀ x ∈ l₁, p x = true) (hc : p c = false) :
    (l₁ ++ c :: l₂).takeWhile p = l₁ := by
  induction l₁ with
  | nil => simp [List.takeWhile_cons, hc]
  | cons x xs ih =>
    have hx : p x = true := h₁ x (by simp)
    simp only [List.cons_append, List.takeWhile_cons, hx, if_true]
    rw [ih (fun y hy => h₁ y (by simp [hy]))]

theorem fileNameOf_before_first_hash (pre post : String) (h : '#' ∉ pre.data) :
    fileNameOf (pre ++ "#" ++ post) = pre := by
  unfold fileNameOf
  have hdata : (pre ++ "#" ++ post).data = pre.data ++ '#' :: post.data := by
    simp [String.data_append]
  rw [hdata, takeWhile_append_of_sat _ _ _ _ (fun x hx => by
      have : x ≠ '#' := fun he => h (he ▸ hx)
      simpa using this) (by decide)]

theorem fileNameOf_hash (frag : String) : fileNameOf ("#" ++ frag) = "" := by
  have := fileNameOf_before_first_hash "" frag (by simp)
  simpa using this

theorem scan_activations (fn : String) (leaves : List Leaf) (st : ScanState) :
    (leaves.foldl (scanStep fn) st).activations
      = st.activations ++ leaves.filter (leafMatches fn) := by
  induction leaves generalizing st with
  | nil => simp
  | cons l t ih =>
    simp only [List.foldl_cons, List.filter_cons]
    cases h : leafMatches fn l with
    | true => simp [scanStep, h, ih]
    | false => simp [scanStep, h, ih]

theorem scan_fileAlreadyOpen (fn : String) (leaves : List Leaf) (st : ScanState) :
    (leaves.foldl (scanStep fn) st).fileAlreadyOpen
      = (st.fileAlreadyOpen || leaves.any (leafMatches fn)) := by
  induction leaves generalizing st with
  | nil => simp
  | cons l t ih =>
    simp only [List.foldl_cons, List.any_cons]
    cases h : leafMatches fn l with
    | true => simp [scanStep, h, ih]
    | false => simp [scanStep, h, ih]

theorem scan_active (fn : String) (leaves : List Leaf) (st : ScanState) :
    (leaves.foldl (scanStep fn) st).active
      = (leaves.filter (leafMatches fn)).foldl (fun _ l => some l) st.active := by
  induction leaves generalizing st with
  | nil => simp
  | cons l t ih =>
    simp only [List.foldl_cons, List.filter_cons]
    cases h : leafMatches fn l with
    | true => simp [scanStep, h, ih]
    | false => simp [scanStep, h, ih]

theorem foldl_overwrite (xs : List Leaf) (a : Option Leaf) :
    xs.foldl (fun _ l => some l) a = xs.getLast?.elim a some := by
  induction xs generalizing a with
  | nil => simp
  | cons x t ih =>
    cases t with
    | nil => simp
    | cons y u =>
      rw [List.foldl_cons, ih, List.getLast?_cons_cons]
      have : (y :: u).getLast?.isSome := by
        rw [List.getLast?_isSome]
        simp
      cases hl : (y :: u).getLast? with
      | none => rw [hl] at this; simp at this
      | some z => simp

theorem navScan_spec (path : String) (ws : List Leaf) (acc : List Leaf) (b : Bool) :
    ws.foldl (navScanStep path) (acc, b)
      = (acc ++ ws.filter (fun l => l.file == some path),
         b || ws.any (fun l => l.file == some path)) := by
  induction ws generalizing acc b with
  | nil => simp
  | cons l t ih =>
    simp only [List.foldl_cons, List.filter_cons, List.any_cons]
    cases h : (l.file == some path) with
    | true => simp [navScanStep, h, ih]
    | false => simp [navScanStep, h, ih]

theorem handleNav_spec (ws : List Leaf) (target : Elem) (ancestors : List Elem)
    (tEl : Elem) (path : String)
    (ht : findTitleEl target ancestors = some tEl) (hp : tEl.dataPath = some path) :
    handleNavigationPanel ws target ancestors
      = match getLeavesOfType "empty" ws with
        | e :: _ =>
          { stopPropagationCount := 0,
            activations := ws.filter (fun l => l.file == some path) ++ [e],
            openLinkCalls := [], dispatched := [] }
        | [] =>
          if ws.any (fun l => l.file == some path) then
            { stopPropagationCount := 0,
              activations := ws.filter (fun l => l.file == some path),
              openLinkCalls := [], dispatched := [] }
          else
            { stopPropagationCount := 1,
              activations := ws.filter (fun l => l.file == some path),
              openLinkCalls := [(path, path, true)], dispatched := [] } := by
  unfold handleNavigationPanel
  rw [ht]
  dsimp only
  rw [hp]
  dsimp only
  rw [navScan_spec]
  simp

theorem classify_nav (target : Elem) (h : isNavFile target = true) :
    classify target = ClickKind.navFile := by
  simp [classify, h]

theorem clickHandler_nav (ws : List Leaf) (ev : MouseEvt) (target : Elem)
    (ancestors : List Elem) (hpure : pureClick ev = true) (hnav : isNavFile target = true) :
    clickHandler ws ev target ancestors = handleNavigationPanel ws target ancestors := by
  simp [clickHandler, hpure, classify_nav target hnav]

theorem clickHandler_synth (ws : List Leaf) (ev : MouseEvt) (target : Elem)
    (ancestors : List Elem) (hpure : pureClick ev = true)
    (hk : classify target = ClickKind.dailyNoteRibbon
        ∨ classify target = ClickKind.uniqueNoteRibbon
        ∨ classify target = ClickKind.searchResult) :
    clickHandler ws ev target ancestors
      = { stopPropagationCount := 1, activations := [], openLinkCalls := [],
          dispatched := [(target, synthMetaClick)] } := by
  rcases hk with hk | hk | hk <;>
    simp [clickHandler, hpure, hk, handleDailyNoteRibbon, handleUniqueNoteRibbon,
      handleSearchResult]

theorem filter_file_ne_nil (ws : List Leaf) (path : String)
    (hmatch : ws.any (fun l => l.file == some path) = true) :
    ws.filter (fun l => l.file == some path) ≠ [] := by
  intro hnil
  rw [List.filter_eq_nil_iff] at hnil
  rw [List.any_eq_true] at hmatch
  obtain ⟨x, hx, hpx⟩ := hmatch
  exact hnil x hx hpx

theorem filter_file_eq_nil (ws : List Leaf) (path : String)
    (hnomatch : ws.any (fun l => l.file == some path) = false) :
    ws.filter (fun l => l.file == some path) = [] := by
  rw [List.filter_eq_nil_iff]
  rw [List.any_eq_false] at hnomatch
  exact hnomatch

/-! The claims. -/

/-- C1: for every interceptor call, the effective new-pane flag delegated to
the underlying primitive is the caller's `newLeaf` (defaulting to false) when
`isSameFile` holds, false when `isSameFile` fails and some open pane matched
during the scan, and true when `isSameFile` fails and no pane matched. -/
theorem c1_effective_new_pane_flag (linkText sourcePath : String) (newLeaf : Option Bool)
    (leaves : List Leaf) (active0 : Option Leaf) :
    (resolve true linkText sourcePath newLeaf leaves active0).delegated
      = some (linkText, sourcePath,
          if isSameFile linkText sourcePath then newLeaf.getD false
          else if leaves.any (leafMatches (fileNameOf linkText)) then false
          else true) := by
  unfold resolve
  cases h : isSameFile linkText sourcePath with
  | true => simp [h]
  | false => simp [h, scan_fileAlreadyOpen]

/-- C3: `fileNameComponent` is the portion of `linkText` before the first `#`;
`isSameFile` holds exactly when that component is empty or the component with
`.md` appended equals `sourcePath`; for `linkText` of form `"#fragment"` and
for empty `linkText`, `isSameFile` is true regardless of `sourcePath` and the
caller's new-pane intent is delegated unchanged (defaulting to false). -/
theorem c3_file_name_component (pre post frag linkText sourcePath : String)
    (newLeaf : Option Bool) (leaves : List Leaf) (active0 : Option Leaf)
    (hpre : '#' ∉ pre.data) :
    fileNameOf (pre ++ "#" ++ post) = pre
    ∧ isSameFile linkText sourcePath
        = (fileNameOf linkText == "" || (fileNameOf linkText ++ ".md") == sourcePath)
    ∧ isSameFile ("#" ++ frag) sourcePath = true
    ∧ isSameFile "" sourcePath = true
    ∧ (resolve true ("#" ++ frag) sourcePath newLeaf leaves active0).delegated
        = some ("#" ++ frag, sourcePath, newLeaf.getD false)
    ∧ (resolve true "" sourcePath newLeaf leaves active0).delegated
        = some ("", sourcePath, newLeaf.getD false) := by
  have h2 : isSameFile ("#" ++ frag) sourcePath = true := by
    simp [isSameFile, fileNameOf_hash]
  have h3 : isSameFile "" sourcePath = true := rfl
  refine ⟨fileNameOf_before_first_hash pre post hpre, rfl, h2, h3, ?_, ?_⟩
  · simp [resolve, h2]
  · simp [resolve, h3]

/-- C3 witness at `linkText = "LinkDemo#Header 1"`. -/
theorem c3_file_name_component_witness :
    ('#' ∉ "LinkDemo".data)
    ∧ (fileNameOf ("LinkDemo" ++ "#" ++ "Header 1") = "LinkDemo"
        ∧ isSameFile "LinkDemo#Header 1" "A.md"
            = (fileNameOf "LinkDemo#Header 1" == ""
                || (fileNameOf "LinkDemo#Header 1" ++ ".md") == "A.md")
        ∧ isSameFile ("#" ++ "Header 1") "A.md" = true
        ∧ isSameFile "" "A.md" = true
        ∧ (resolve true ("#" ++ "Header 1") "A.md" (some true) [] none).delegated
            = some ("#" ++ "Header 1", "A.md", (some true).getD false)
        ∧ (resolve true "" "A.md" (some true) [] none).delegated
            = some ("", "A.md", (some true).getD false)) :=
  ⟨by decide,
   c3_file_name_component "LinkDemo" "Header 1" "Header 1" "LinkDemo#Header 1" "A.md"
     (some true) [] none (by decide)⟩

/-- C4: when `isSameFile` fails, the scan activates exactly the matching panes
(markdown panes whose file ends with the component plus `.md`, non-markdown
panes whose file ends with the component) in iteration order, the last match
ending up active; with no match, nothing is activated before delegation. -/
theorem c4_scan_activates_matches (linkText sourcePath : String) (newLeaf : Option Bool)
    (leaves : List Leaf) (active0 : Option Leaf)
    (h : isSameFile linkText sourcePath = false) :
    (resolve true linkText sourcePath newLeaf leaves active0).activations
        = leaves.filter (leafMatches (fileNameOf linkText))
    ∧ (∀ l : Leaf, leafMatches (fileNameOf linkText) l = true
        ↔ ∃ f, l.file = some f
            ∧ ((l.type = "markdown" ∧ endsWith f (fileNameOf linkText ++ ".md") = true)
               ∨ (l.type ≠ "markdown" ∧ endsWith f (fileNameOf linkText) = true)))
    ∧ (resolve true linkText sourcePath newLeaf leaves active0).activeAfter
        = (leaves.filter (leafMatches (fileNameOf linkText))).getLast?.elim active0 some
    ∧ (leaves.filter (leafMatches (fileNameOf linkText)) = []
        → (resolve true linkText sourcePath newLeaf leaves active0).activations = []) := by
  have hact : (resolve true linkText sourcePath newLeaf leaves active0).activations
      = leaves.filter (leafMatches (fileNameOf linkText)) := by
    simp [resolve, h, scan_activations]
  refine ⟨hact, ?_, ?_, fun he => by rw [hact, he]⟩
  · intro l
    cases hf : l.file with
    | none => simp [leafMatches, hf]
    | some f =>
      by_cases hm : l.type = "markdown" <;> simp [leafMatches, hf, hm]
  · simp [resolve, h, scan_active, foldl_overwrite]

/-- C4 witness: link `"B"` from `"A.md"` with panes `A.md` and `B.md` open. -/
theorem c4_scan_activates_matches_witness :
    isSameFile "B" "A.md" = false
    ∧ ((resolve true "B" "A.md" none
          [Leaf.mk "markdown" (some "A.md"), Leaf.mk "markdown" (some "B.md")] none).activations
        = ([Leaf.mk "markdown" (some "A.md"),
            Leaf.mk "markdown" (some "B.md")].filter (leafMatches (fileNameOf "B")))
      ∧ (∀ l : Leaf, leafMatches (fileNameOf "B") l = true
          ↔ ∃ f, l.file = some f
              ∧ ((l.type = "markdown" ∧ endsWith f (fileNameOf "B" ++ ".md") = true)
                 ∨ (l.type ≠ "markdown" ∧ endsWith f (fileNameOf "B") = true)))
      ∧ (resolve true "B" "A.md" none
          [Leaf.mk "markdown" (some "A.md"), Leaf.mk "markdown" (some "B.md")] none).activeAfter
          = ([Leaf.mk "markdown" (some "A.md"),
              Leaf.mk "markdown" (some "B.md")].filter (leafMatches (fileNameOf "B"))).getLast?.elim
              none some
      ∧ ([Leaf.mk "markdown" (some "A.md"),
          Leaf.mk "markdown" (some "B.md")].filter (leafMatches (fileNameOf "B")) = []
          → (resolve true "B" "A.md" none
              [Leaf.mk "markdown" (some "A.md"), Leaf.mk "markdown" (some "B.md")] none).activations
              = [])) :=
  ⟨by decide,
   c4_scan_activates_matches "B" "A.md" none
     [Leaf.mk "markdown" (some "A.md"), Leaf.mk "markdown" (some "B.md")] none (by decide)⟩

/-- C2 counterexample: a navigation-file click whose `data-path` equals the
displayed file of an open pane, with no empty pane. The pane is activated and
no open-link call is made, but — contrary to the claim — propagation is NOT
suppressed: `stopPropagation` runs only in the no-match branch
(src/main.ts lines 131-134). -/
theorem c2_counterexample :
    pureClick (MouseEvt.mk false false false false true true) = true
    ∧ isNavFile (Elem.mk ["nav-file-title"] none (some "Notes/X.md")) = true
    ∧ (Elem.mk ["nav-file-title"] none (some "Notes/X.md")).dataPath = some "Notes/X.md"
    ∧ (Leaf.mk "markdown" (some "Notes/X.md")).file = some "Notes/X.md"
    ∧ getLeavesOfType "empty" [Leaf.mk "markdown" (some "Notes/X.md")] = []
    ∧ (clickHandler [Leaf.mk "markdown" (some "Notes/X.md")]
        (MouseEvt.mk false false false false true true)
        (Elem.mk ["nav-file-title"] none (some "Notes/X.md")) []).activations
        = [Leaf.mk "markdown" (some "Notes/X.md")]
    ∧ (clickHandler [Leaf.mk "markdown" (some "Notes/X.md")]
        (MouseEvt.mk false false false false true true)
        (Elem.mk ["nav-file-title"] none (some "Notes/X.md")) []).openLinkCalls = []
    ∧ ¬ 1 ≤ (clickHandler [Leaf.mk "markdown" (some "Notes/X.md")]
        (MouseEvt.mk false false false false true true)
        (Elem.mk ["nav-file-title"] none (some "Notes/X.md")) []).stopPropagationCount := by
  decide

/-- C2 (amended): for every navigation-file click whose `data-path` exactly
equals the displayed file of some open pane, when no pane of type `empty`
exists, the matching panes are activated and no extra open-link navigation
call is made, but the click's propagation is NOT suppressed — the event
continues to host handlers. -/
theorem c2_match_without_suppression (ws : List Leaf) (ev : MouseEvt) (target tEl : Elem)
    (ancestors : List Elem) (path : String)
    (hpure : pureClick ev = true) (hnav : isNavFile target = true)
    (ht : findTitleEl target ancestors = some tEl) (hp : tEl.dataPath = some path)
    (hmatch : ws.any (fun l => l.file == some path) = true)
    (hempty : getLeavesOfType "empty" ws = []) :
    clickHandler ws ev target ancestors
      = { stopPropagationCount := 0,
          activations := ws.filter (fun l => l.file == some path),
          openLinkCalls := [], dispatched := [] }
    ∧ ws.filter (fun l => l.file == some path) ≠ [] := by
  constructor
  · rw [clickHandler_nav ws ev target ancestors hpure hnav,
      handleNav_spec ws target ancestors tEl path ht hp, hempty]
    simp [hmatch]
  · exact filter_file_ne_nil ws path hmatch

/-- C2 (amended) witness: one markdown pane displaying `Notes/X.md`, clicked
path `Notes/X.md`, no empty pane. -/
theorem c2_match_without_suppression_witness :
    pureClick (MouseEvt.mk false false false false true true) = true
    ∧ (clickHandler [Leaf.mk "markdown" (some "Notes/X.md")]
          (MouseEvt.mk false false false false true true)
          (Elem.mk ["nav-file-title"] none (some "Notes/X.md")) []
        = { stopPropagationCount := 0,
            activations := [Leaf.mk "markdown" (some "Notes/X.md")].filter
              (fun l => l.file == some "Notes/X.md"),
            openLinkCalls := [], dispatched := [] }
      ∧ [Leaf.mk "markdown" (some "Notes/X.md")].filter
          (fun l => l.file == some "Notes/X.md") ≠ []) :=
  ⟨by decide,
   c2_match_without_suppression [Leaf.mk "markdown" (some "Notes/X.md")]
     (MouseEvt.mk false false false false true true)
     (Elem.mk ["nav-file-title"] none (some "Notes/X.md"))
     (Elem.mk ["nav-file-title"] none (some "Notes/X.md")) [] "Notes/X.md"
     (by decide) (by decide) (by decide) (by decide) (by decide) (by decide)⟩

/-- C5 counterexample: a search-result click whose original event has
`bubbles = false` and `cancelable = false`. Exactly one synthesized meta click
is dispatched, but its `bubbles`/`cancelable` flags are the hardcoded `true`
(src/main.ts lines 164-168), not the original event's flags, contrary to the
claim. -/
theorem c5_counterexample :
    pureClick (MouseEvt.mk false false false false false false) = true
    ∧ classify (Elem.mk ["search-result"] none none) = ClickKind.searchResult
    ∧ (clickHandler [] (MouseEvt.mk false false false false false false)
        (Elem.mk ["search-result"] none none) []).stopPropagationCount = 1
    ∧ (clickHandler [] (MouseEvt.mk false false false false false false)
        (Elem.mk ["search-result"] none none) []).dispatched
        = [(Elem.mk ["search-result"] none none, synthMetaClick)]
    ∧ ¬ synthMetaClick.bubbles = (MouseEvt.mk false false false false false false).bubbles
    ∧ ¬ synthMetaClick.cancelable
        = (MouseEvt.mk false false false false false false).cancelable := by
  decide

/-- C5 (amended): for every click classified as daily-note-ribbon,
unique-note-ribbon, or search-result, the handler stops the original event's
propagation exactly once and dispatches exactly one synthesized click on the
same target, with `metaKey` forced true and with `bubbles` and `cancelable`
both hardcoded to true, regardless of the original event's flags. -/
theorem c5_synthesized_meta_click (ws : List Leaf) (ev : MouseEvt) (target : Elem)
    (ancestors : List Elem) (hpure : pureClick ev = true)
    (hk : classify target = ClickKind.dailyNoteRibbon
        ∨ classify target = ClickKind.uniqueNoteRibbon
        ∨ classify target = ClickKind.searchResult) :
    clickHandler ws ev target ancestors
      = { stopPropagationCount := 1, activations := [], openLinkCalls := [],
          dispatched := [(target, synthMetaClick)] }
    ∧ synthMetaClick.metaKey = true
    ∧ synthMetaClick.bubbles = true
    ∧ synthMetaClick.cancelable = true :=
  ⟨clickHandler_synth ws ev target ancestors hpure hk, rfl, rfl, rfl⟩

/-- C5 (amended) witness at a search-result click. -/
theorem c5_synthesized_meta_click_witness :
    pureClick (MouseEvt.mk false false false false true true) = true
    ∧ (clickHandler [] (MouseEvt.mk false false false false true true)
          (Elem.mk ["search-result"] none none) []
        = { stopPropagationCount := 1, activations := [], openLinkCalls := [],
            dispatched := [(Elem.mk ["search-result"] none none, synthMetaClick)] }
      ∧ synthMetaClick.metaKey = true
      ∧ synthMetaClick.bubbles = true
      ∧ synthMetaClick.cancelable = true) :=
  ⟨by decide,
   c5_synthesized_meta_click [] (MouseEvt.mk false false false false true true)
     (Elem.mk ["search-result"] none none) [] (by decide) (Or.inr (Or.inr (by decide)))⟩

/-- C6: for every navigation-file click with a resolvable path, when a pane of
type `empty` exists, the first such empty pane is activated last (so it ends
up active) and the handler returns with no propagation suppression and no
open-link call, leaving the host's default behavior to open the file there. -/
theorem c6_empty_pane_reuse (ws : List Leaf) (ev : MouseEvt) (target tEl : Elem)
    (ancestors : List Elem) (path : String) (e : Leaf) (rest : List Leaf)
    (hpure : pureClick ev = true) (hnav : isNavFile target = true)
    (ht : findTitleEl target ancestors = some tEl) (hp : tEl.dataPath = some path)
    (hempty : getLeavesOfType "empty" ws = e :: rest) :
    clickHandler ws ev target ancestors
      = { stopPropagationCount := 0,
          activations := ws.filter (fun l => l.file == some path) ++ [e],
          openLinkCalls := [], dispatched := [] }
    ∧ (getLeavesOfType "empty" ws).head? = some e := by
  constructor
  · rw [clickHandler_nav ws ev target ancestors hpure hnav,
      handleNav_spec ws target ancestors tEl path ht hp, hempty]
  · rw [hempty]
    rfl

/-- C6 witness: one empty pane, no matching pane. -/
theorem c6_empty_pane_reuse_witness :
    pureClick (MouseEvt.mk false false false false true true) = true
    ∧ (clickHandler [Leaf.mk "empty" none] (MouseEvt.mk false false false false true true)
          (Elem.mk ["nav-file-title"] none (some "Notes/X.md")) []
        = { stopPropagationCount := 0,
            activations := [Leaf.mk "empty" none].filter
              (fun l => l.file == some "Notes/X.md") ++ [Leaf.mk "empty" none],
            openLinkCalls := [], dispatched := [] }
      ∧ (getLeavesOfType "empty" [Leaf.mk "empty" none]).head? = some (Leaf.mk "empty" none)) :=
  ⟨by decide,
   c6_empty_pane_reuse [Leaf.mk "empty" none] (MouseEvt.mk false false false false true true)
     (Elem.mk ["nav-file-title"] none (some "Notes/X.md"))
     (Elem.mk ["nav-file-title"] none (some "Notes/X.md")) [] "Notes/X.md"
     (Leaf.mk "empty" none) [] (by decide) (by decide) (by decide) (by decide) (by decide)⟩

/-- C7: for every navigation-file click with a resolvable path, when no open
pane's displayed file equals the path and no empty pane exists, the handler
suppresses propagation and calls the open-link primitive exactly once with
the path as both link text and source path and `newLeaf = true`. -/
theorem c7_force_new_pane (ws : List Leaf) (ev : MouseEvt) (target tEl : Elem)
    (ancestors : List Elem) (path : String)
    (hpure : pureClick ev = true) (hnav : isNavFile target = true)
    (ht : findTitleEl target ancestors = some tEl) (hp : tEl.dataPath = some path)
    (hnomatch : ws.any (fun l => l.file == some path) = false)
    (hempty : getLeavesOfType "empty" ws = []) :
    clickHandler ws ev target ancestors
      = { stopPropagationCount := 1, activations := [],
          openLinkCalls := [(path, path, true)], dispatched := [] } := by
  rw [clickHandler_nav ws ev target ancestors hpure hnav,
    handleNav_spec ws target ancestors tEl path ht hp, hempty]
  simp [hnomatch, filter_file_eq_nil ws path hnomatch]

/-- C7 witness: one non-matching pane, no empty pane. -/
theorem c7_force_new_pane_witness :
    pureClick (MouseEvt.mk false false false false true true) = true
    ∧ clickHandler [Leaf.mk "markdown" (some "Other.md")]
        (MouseEvt.mk false false false false true true)
        (Elem.mk ["nav-file-title"] none (some "Notes/X.md")) []
        = { stopPropagationCount := 1, activations := [],
            openLinkCalls := [("Notes/X.md", "Notes/X.md", true)], dispatched := [] } :=
  ⟨by decide,
   c7_force_new_pane [Leaf.mk "markdown" (some "Other.md")]
     (MouseEvt.mk false false false false true true)
     (Elem.mk ["nav-file-title"] none (some "Notes/X.md"))
     (Elem.mk ["nav-file-title"] none (some "Notes/X.md")) [] "Notes/X.md"
     (by decide) (by decide) (by decide) (by decide) (by decide) (by decide)⟩

/-- C8: with any of shift/ctrl/meta/alt held, the click handler returns
immediately with no side effects; in particular the synthesized meta click,
re-entering the capture listener, is itself a no-op, so it is never
re-suppressed or re-dispatched. -/
theorem c8_modifier_guard (ws : List Leaf) (ev : MouseEvt) (target : Elem)
    (ancestors : List Elem)
    (h : ev.shiftKey = true ∨ ev.ctrlKey = true ∨ ev.metaKey = true ∨ ev.altKey = true) :
    clickHandler ws ev target ancestors = HandlerResult.nil
    ∧ clickHandler ws synthMetaClick target ancestors = HandlerResult.nil := by
  have hp : pureClick ev = false := by
    rcases h with h | h | h | h <;> simp [pureClick, h]
  exact ⟨by simp [clickHandler, hp], rfl⟩

/-- C8 witness: a ctrl-click on a recognized navigation target. -/
theorem c8_modifier_guard_witness :
    ((MouseEvt.mk false true false false true true).shiftKey = true
      ∨ (MouseEvt.mk false true false false true true).ctrlKey = true
      ∨ (MouseEvt.mk false true false false true true).metaKey = true
      ∨ (MouseEvt.mk false true false false true true).altKey = true)
    ∧ (clickHandler [Leaf.mk "markdown" (some "Notes/X.md")]
          (MouseEvt.mk false true false false true true)
          (Elem.mk ["nav-file-title"] none (some "Notes/X.md")) [] = HandlerResult.nil
      ∧ clickHandler [Leaf.mk "markdown" (some "Notes/X.md")] synthMetaClick
          (Elem.mk ["nav-file-title"] none (some "Notes/X.md")) [] = HandlerResult.nil) :=
  ⟨by decide,
   c8_modifier_guard [Leaf.mk "markdown" (some "Notes/X.md")]
     (MouseEvt.mk false true false false true true)
     (Elem.mk ["nav-file-title"] none (some "Notes/X.md")) []
     (Or.inr (Or.inl (by decide)))⟩

/-- C9: degenerate inputs are silent no-ops — an absent original primitive
means the interceptor delegates nothing, and a navigation-file click whose
target has no self-or-ancestor with the `nav-file-title` marker, or whose
marker element has no `data-path` attribute, produces no suppression, no
activation, no navigation and no dispatch. -/
theorem c9_degenerate_noop (linkText sourcePath : String) (newLeaf : Option Bool)
    (leaves : List Leaf) (active0 : Option Leaf) (ws : List Leaf) (ev : MouseEvt)
    (target : Elem) (ancestors : List Elem)
    (hpure : pureClick ev = true) (hnav : isNavFile target = true) :
    (resolve false linkText sourcePath newLeaf leaves active0).delegated = none
    ∧ (findTitleEl target ancestors = none
        → clickHandler ws ev target ancestors = HandlerResult.nil)
    ∧ (∀ tEl : Elem, findTitleEl target ancestors = some tEl → tEl.dataPath = none
        → clickHandler ws ev target ancestors = HandlerResult.nil) := by
  refine ⟨by simp [resolve], ?_, ?_⟩
  · intro hnone
    rw [clickHandler_nav ws ev target ancestors hpure hnav]
    unfold handleNavigationPanel
    rw [hnone]
  · intro tEl ht hp
    rw [clickHandler_nav ws ev target ancestors hpure hnav]
    unfold handleNavigationPanel
    rw [ht]
    dsimp only
    rw [hp]

/-- C9 witness: a click on a `nav-file-title-content` element with no
`nav-file-title` self-or-ancestor. -/
theorem c9_degenerate_noop_witness :
    pureClick (MouseEvt.mk false false false false true true) = true
    ∧ isNavFile (Elem.mk ["nav-file-title-content"] none none) = true
    ∧ ((resolve false "B" "A.md" none [] none).delegated = none
      ∧ (findTitleEl (Elem.mk ["nav-file-title-content"] none none) [] = none
          → clickHandler [] (MouseEvt.mk false false false false true true)
              (Elem.mk ["nav-file-title-content"] none none) [] = HandlerResult.nil)
      ∧ (∀ tEl : Elem,
          findTitleEl (Elem.mk ["nav-file-title-content"] none none) [] = some tEl
          → tEl.dataPath = none
          → clickHandler [] (MouseEvt.mk false false false false true true)
              (Elem.mk ["nav-file-title-content"] none none) [] = HandlerResult.nil)) :=
  ⟨by decide, by decide,
   c9_degenerate_noop "B" "A.md" none [] none []
     (MouseEvt.mk false false false false true true)
     (Elem.mk ["nav-file-title-content"] none none) [] (by decide) (by decide)⟩

/-- C10: when a navigation-file click's path matches an open pane and an empty
pane also exists, the matching panes are activated first and the first empty
pane last, so the empty pane (which displays no file, hence is none of the
matches) ends up active, and the event is not suppressed. -/
theorem c10_empty_overrides_match (ws : List Leaf) (ev : MouseEvt) (target tEl : Elem)
    (ancestors : List Elem) (path : String) (e : Leaf) (rest : List Leaf)
    (hpure : pureClick ev = true) (hnav : isNavFile target = true)
    (ht : findTitleEl target ancestors = some tEl) (hp : tEl.dataPath = some path)
    (hmatch : ws.any (fun l => l.file == some path) = true)
    (hempty : getLeavesOfType "empty" ws = e :: rest)
    (hefile : e.file ≠ some path) :
    (clickHandler ws ev target ancestors).activations
        = ws.filter (fun l => l.file == some path) ++ [e]
    ∧ ws.filter (fun l => l.file == some path) ≠ []
    ∧ (clickHandler ws ev target ancestors).activations.getLast? = some e
    ∧ e ∉ ws.filter (fun l => l.file == some path)
    ∧ (clickHandler ws ev target ancestors).stopPropagationCount = 0
    ∧ (clickHandler ws ev target ancestors).openLinkCalls = [] := by
  have hr : clickHandler ws ev target ancestors
      = { stopPropagationCount := 0,
          activations := ws.filter (fun l => l.file == some path) ++ [e],
          openLinkCalls := [], dispatched := [] } := by
    rw [clickHandler_nav ws ev target ancestors hpure hnav,
      handleNav_spec ws target ancestors tEl path ht hp, hempty]
  refine ⟨by rw [hr], filter_file_ne_nil ws path hmatch, ?_, ?_, by rw [hr], by rw [hr]⟩
  · rw [hr]
    exact List.getLast?_concat _
  · intro hmem
    rw [List.mem_filter] at hmem
    exact hefile (by simpa using hmem.2)

/-- C10 witness: a matching markdown pane plus one empty pane. -/
theorem c10_empty_overrides_match_witness :
    pureClick (MouseEvt.mk false false false false true true) = true
    ∧ (Leaf.mk "empty" none).file ≠ some "Notes/X.md"
    ∧ ((clickHandler [Leaf.mk "markdown" (some "Notes/X.md"), Leaf.mk "empty" none]
          (MouseEvt.mk false false false false true true)
          (Elem.mk ["nav-file-title"] none (some "Notes/X.md")) []).activations
        = [Leaf.mk "markdown" (some "Notes/X.md"),
            Leaf.mk "empty" none].filter (fun l => l.file == some "Notes/X.md")
            ++ [Leaf.mk "empty" none]
      ∧ [Leaf.mk "markdown" (some "Notes/X.md"),
          Leaf.mk "empty" none].filter (fun l => l.file == some "Notes/X.md") ≠ []
      ∧ (clickHandler [Leaf.mk "markdown" (some "Notes/X.md"), Leaf.mk "empty" none]
          (MouseEvt.mk false false false false true true)
          (Elem.mk ["nav-file-title"] none (some "Notes/X.md")) []).activations.getLast?
          = some (Leaf.mk "empty" none)
      ∧ Leaf.mk "empty" none ∉ [Leaf.mk "markdown" (some "Notes/X.md"),
          Leaf.mk "empty" none].filter (fun l => l.file == some "Notes/X.md")
      ∧ (clickHandler [Leaf.mk "markdown" (some "Notes/X.md"), Leaf.mk "empty" none]
          (MouseEvt.mk false false false false true true)
          (Elem.mk ["nav-file-title"] none (some "Notes/X.md")) []).stopPropagationCount = 0
      ∧ (clickHandler [Leaf.mk "markdown" (some "Notes/X.md"), Leaf.mk "empty" none]
          (MouseEvt.mk false false false false true true)
          (Elem.mk ["nav-file-title"] none (some "Notes/X.md")) []).openLinkCalls = []) :=
  ⟨by decide, by decide,
   c10_empty_overrides_match
     [Leaf.mk "markdown" (some "Notes/X.md"), Leaf.mk "empty" none]
     (MouseEvt.mk false false false false true true)
     (Elem.mk ["nav-file-title"] none (some "Notes/X.md"))
     (Elem.mk ["nav-file-title"] none (some "Notes/X.md")) [] "Notes/X.md"
     (Leaf.mk "empty" none) [] (by decide) (by decide) (by decide) (by decide)
     (by decide) (by decide) (by decide)⟩

end OpenInNewTab
